import Mathlib

/-!
Verification of the public C ABI header fragment `example_imgui_lib/imgui_testapp_api.h`.

The header consists of a `#pragma once` guard, a three-branch conditional
definition of the `IMGUI_TESTAPP_API` macro, and one function declaration
`IMGUI_TESTAPP_API int imgui_testapp_run(void);`.

The first part of this file embeds the header itself: the toolchain
configuration the preprocessor conditions test, the expansion of the
`IMGUI_TESTAPP_API` macro in each branch, the single declaration the header
emits, and the `#pragma once` inclusion behaviour.

The implementation behind the declared entrypoint is not part of the
repository fragment; the second part of the file models the run-loop
behaviour from the specification, each such definition marked
`Modelled from the spec:` in its doc comment.
-/

/-- A toolchain configuration, recording which of the three predefined
macros tested by the preprocessor conditional chain of the header is
defined: `_WIN32`, `__GNUC__`, `__clang__`. -/
structure Toolchain where
  win32 : Bool
  gnuc : Bool
  clang : Bool
  deriving DecidableEq, Repr

/-- The export or visibility marker a branch of the conditional attaches
to the declaration: `__declspec(dllexport)` on the Windows branch, or
`__attribute__((visibility("default")))` on the GNU/Clang branch. -/
inductive ExportMarker where
  | dllexport
  | visibilityDefault
  deriving DecidableEq, Repr

/-- The expansion of the `IMGUI_TESTAPP_API` macro: whether the expansion
carries C language linkage, and which export marker, when any, it attaches. -/
structure ApiExpansion where
  cLinkage : Bool
  marker : Option ExportMarker
  deriving DecidableEq, Repr

/-- Expansion of the `IMGUI_TESTAPP_API` macro following the conditional
chain of `imgui_testapp_api.h` lines 8 to 14: on `_WIN32` the expansion is
C linkage plus `dllexport`; otherwise, on `__GNUC__` or `__clang__`, it is
C linkage plus the default-visibility attribute; otherwise it is C linkage
alone. -/
def IMGUI_TESTAPP_API (t : Toolchain) : ApiExpansion :=
  if t.win32 then { cLinkage := true, marker := some .dllexport }
  else if t.gnuc || t.clang then { cLinkage := true, marker := some .visibilityDefault }
  else { cLinkage := true, marker := none }

/-- The C types appearing in the declaration: the return type is the
plain (signed) `int`. -/
inductive CType where
  | signedInt
  deriving DecidableEq, Repr

/-- A function declaration as emitted by the header: declared name,
parameter list (empty models the `(void)` parameter list), return type,
and the attributes contributed by the `IMGUI_TESTAPP_API` macro. -/
structure FunDecl where
  name : String
  params : List CType
  ret : CType
  api : ApiExpansion
  deriving DecidableEq, Repr

/-- The list of declarations the header emits for a given toolchain:
exactly the single declaration
`IMGUI_TESTAPP_API int imgui_testapp_run(void);` (line 16). -/
def imgui_testapp_api_h (t : Toolchain) : List FunDecl :=
  [{ name := "imgui_testapp_run", params := [], ret := .signedInt,
     api := IMGUI_TESTAPP_API t }]

/-- The two preprocessing-relevant items the header body contributes to a
translation unit: the definition of the `IMGUI_TESTAPP_API` macro and the
declaration of `imgui_testapp_run`. -/
inductive HeaderItem where
  | defineApiItem
  | declRunItem
  deriving DecidableEq, Repr

/-- The body of the header, emitted when an inclusion is actually
processed. -/
def headerBody : List HeaderItem := [.defineApiItem, .declRunItem]

/-- Preprocessor state of a translation unit with respect to this header:
whether the `#pragma once` marker for the header has been recorded, and
the items emitted so far. -/
structure PPState where
  onceSeen : Bool
  emitted : List HeaderItem
  deriving DecidableEq, Repr

/-- Processing one textual inclusion of the header: with `#pragma once`
on line 1, a second or later inclusion in the same translation unit is
skipped entirely; the first inclusion records the marker and emits the
body. -/
def processInclude (st : PPState) : PPState :=
  if st.onceSeen then st
  else { onceSeen := true, emitted := st.emitted ++ headerBody }

/-- The preprocessor state after a translation unit includes the header
`n` times, starting from a fresh state. -/
def includeHeaderTimes : Nat → PPState
  | 0 => { onceSeen := false, emitted := [] }
  | n + 1 => processInclude (includeHeaderTimes n)

/-- Modelled from the spec: the run-loop state machine
Idle, Running, Terminated; the implementation of the run-loop is not in
the provided source. Running carries the number of frames left before the
window closes; Terminated carries the integer status. -/
inductive LoopState where
  | idle
  | running (framesLeft : Nat)
  | terminated (status : Int)
  deriving DecidableEq, Repr

/-- Whether a run-loop state is the terminal state. -/
def LoopState.isTerminated : LoopState → Bool
  | .terminated _ => true
  | _ => false

/-- The status carried by a terminated run-loop state (0 otherwise). -/
def loopStatus : LoopState → Int
  | .terminated s => s
  | _ => 0

/-- Modelled from the spec: the environment of one call, which the
provided source does not contain: whether the windowing and graphics
backend initializes successfully, and after how many frames the user
closes the window. -/
structure Env where
  backendInitOk : Bool
  framesUntilClose : Nat
  deriving DecidableEq, Repr

/-- Modelled from the spec: one step of the run-loop, which the provided
source does not contain. From Idle, a successful backend initialization
enters Running, and a failed one terminates with status 1; Running counts
frames down and terminates with status 0 when the window closes;
Terminated is absorbing. -/
def runLoopStep (e : Env) : LoopState → LoopState
  | .idle => if e.backendInitOk then .running e.framesUntilClose else .terminated 1
  | .running 0 => .terminated 0
  | .running (n + 1) => .running n
  | .terminated s => .terminated s

/-- The run-loop state after `k` steps from Idle. -/
def driveLoop (e : Env) : Nat → LoopState
  | 0 => .idle
  | k + 1 => runLoopStep e (driveLoop e k)

/-- The number of steps the call takes: the step count at which the
run-loop first reaches the terminal state. -/
def callSteps (e : Env) : Nat :=
  if e.backendInitOk then e.framesUntilClose + 2 else 1

/-- Modelled from the spec: the exported entrypoint, whose implementation
is not in the provided source. It synchronously drives the run-loop to
completion and returns the status of the terminal state. Being a total
function, no exception, panic or fault crosses the boundary: the only
outcome is the returned integer. -/
def imgui_testapp_run (e : Env) : Int :=
  loopStatus (driveLoop e (callSteps e))

/-- Modelled from the spec: the failure taxonomy of section 7, which the
provided source does not contain: normal exit, backend initialization
failure, invalid re-entrant invocation, unexpected run-loop
termination. -/
inductive RunOutcome where
  | normalExit
  | backendInitFailure
  | reentrantInvocation
  | unexpectedTermination
  deriving DecidableEq, Repr

/-- Modelled from the spec: the conversion of every outcome to the
integer status returned across the boundary, which the provided source
does not contain. Normal exit maps to 0 and each failure kind to a
distinct non-zero value; the conversion is a total function, so no
language-level exception crosses the boundary. -/
def statusOf : RunOutcome → Int
  | .normalExit => 0
  | .backendInitFailure => 1
  | .reentrantInvocation => 2
  | .unexpectedTermination => 3

/-- Modelled from the spec: the process-wide resource state the call
touches, which the provided source does not contain: the number of live
windows and of live graphics contexts. -/
structure ProcState where
  windows : Nat
  graphicsContexts : Nat
  deriving DecidableEq, Repr

/-- Creation of the window and the associated graphics context at the
start of a successful call. -/
def acquireResources (st : ProcState) : ProcState :=
  { windows := st.windows + 1, graphicsContexts := st.graphicsContexts + 1 }

/-- Destruction of the window and the associated graphics context before
the call returns. -/
def releaseResources (st : ProcState) : ProcState :=
  { windows := st.windows - 1, graphicsContexts := st.graphicsContexts - 1 }

/-- Modelled from the spec: the entrypoint together with its effect on
the process-wide resource state, which the provided source does not
contain. A successful initialization acquires the window and context,
runs the loop, and releases both before returning; a failed
initialization acquires nothing and returns a non-zero status. -/
def imgui_testapp_run_full (e : Env) (st : ProcState) : Int × ProcState :=
  if e.backendInitOk then
    (loopStatus (driveLoop e (callSteps e)), releaseResources (acquireResources st))
  else (1, st)

lemma driveLoop_succ (e : Env) (k : Nat) :
    driveLoop e (k + 1) = runLoopStep e (driveLoop e k) := rfl

lemma driveLoop_running_ok (e : Env) (he : e.backendInitOk = true) :
    ∀ j, j ≤ e.framesUntilClose →
      driveLoop e (j + 1) = LoopState.running (e.framesUntilClose - j) := by
  intro j
  induction j with
  | zero =>
    intro _
    simp [driveLoop, runLoopStep, he]
  | succ j ih =>
    intro hj
    have hj' : j ≤ e.framesUntilClose := Nat.le_of_succ_le hj
    have hrun : driveLoop e (j + 1) = LoopState.running (e.framesUntilClose - j) := ih hj'
    have hsub : e.framesUntilClose - j = (e.framesUntilClose - (j + 1)) + 1 := by omega
    rw [driveLoop_succ, hrun, hsub]
    rfl

lemma driveLoop_terminated_ok (e : Env) (he : e.backendInitOk = true) :
    driveLoop e (e.framesUntilClose + 2) = LoopState.terminated 0 := by
  have h1 : driveLoop e (e.framesUntilClose + 1) = LoopState.running 0 := by
    have h := driveLoop_running_ok e he e.framesUntilClose (le_refl _)
    simpa using h
  have h2 : e.framesUntilClose + 2 = (e.framesUntilClose + 1) + 1 := rfl
  rw [h2, driveLoop_succ, h1]
  rfl

lemma driveLoop_terminated_add (e : Env) (k : Nat) (s : Int)
    (h : driveLoop e k = LoopState.terminated s) (d : Nat) :
    driveLoop e (k + d) = LoopState.terminated s := by
  induction d with
  | zero => simpa using h
  | succ d ih =>
    rw [Nat.add_succ, driveLoop_succ, ih]
    rfl

lemma driveLoop_fail (e : Env) (he : e.backendInitOk = false) (k : Nat) (hk : 1 ≤ k) :
    driveLoop e k = LoopState.terminated 1 := by
  have h1 : driveLoop e 1 = LoopState.terminated 1 := by
    simp [driveLoop, runLoopStep, he]
  obtain ⟨d, rfl⟩ := Nat.exists_eq_add_of_le hk
  exact driveLoop_terminated_add e 1 1 h1 d

lemma driveLoop_not_terminated (e : Env) (k : Nat) (hk : k < callSteps e) :
    (driveLoop e k).isTerminated = false := by
  by_cases he : e.backendInitOk = true
  · have hk2 : k < e.framesUntilClose + 2 := by
      simpa [callSteps, he] using hk
    cases k with
    | zero => rfl
    | succ j =>
      have hj : j ≤ e.framesUntilClose := by omega
      rw [driveLoop_running_ok e he j hj]
      rfl
  · have he' : e.backendInitOk = false := by simpa using he
    have hk1 : k < 1 := by simpa [callSteps, he'] using hk
    have hk0 : k = 0 := by omega
    subst hk0
    rfl

lemma driveLoop_at_callSteps (e : Env) :
    driveLoop e (callSteps e) = LoopState.terminated (imgui_testapp_run e) := by
  by_cases he : e.backendInitOk = true
  · have hcs : callSteps e = e.framesUntilClose + 2 := by simp [callSteps, he]
    have h := driveLoop_terminated_ok e he
    simp [imgui_testapp_run, hcs, h, loopStatus]
  · have he' : e.backendInitOk = false := by simpa using he
    have hcs : callSteps e = 1 := by simp [callSteps, he']
    have h := driveLoop_fail e he' 1 (le_refl 1)
    simp [imgui_testapp_run, hcs, h, loopStatus]

lemma includeHeaderTimes_pos (n : Nat) :
    includeHeaderTimes (n + 1) = { onceSeen := true, emitted := headerBody } := by
  induction n with
  | zero => rfl
  | succ n ih =>
    show processInclude (includeHeaderTimes (n + 1)) = _
    rw [ih]
    rfl

/-- Claim C1: for every toolchain, the header declares exactly one
symbol, named `imgui_testapp_run`, with zero parameters and a signed
integer return type. -/
theorem C1_single_symbol (t : Toolchain) :
    (imgui_testapp_api_h t).map (fun d => (d.name, d.params, d.ret)) =
      [("imgui_testapp_run", ([] : List CType), CType.signedInt)] := by
  obtain ⟨w, g, c⟩ := t
  cases w <;> cases g <;> cases c <;> rfl

/-- Claim C2, counterexample: the claim that every branch of the
conditional attaches an export or visibility marker is false: on a
toolchain defining none of `_WIN32`, `__GNUC__`, `__clang__`, the macro
attaches no marker at all. -/
theorem C2_counterexample :
    (IMGUI_TESTAPP_API { win32 := false, gnuc := false, clang := false }).marker
      = none := rfl

/-- Claim C2, amended: the Windows branch attaches the `dllexport`
marker, the GNU/Clang branch attaches the default-visibility attribute,
and the remaining fallback branch attaches no export or visibility
marker (only C linkage). -/
theorem C2_amended_markers (t : Toolchain) :
    (t.win32 = true → (IMGUI_TESTAPP_API t).marker = some ExportMarker.dllexport) ∧
    (t.win32 = false → (t.gnuc = true ∨ t.clang = true) →
      (IMGUI_TESTAPP_API t).marker = some ExportMarker.visibilityDefault) ∧
    (t.win32 = false → t.gnuc = false → t.clang = false →
      (IMGUI_TESTAPP_API t).marker = none) := by
  obtain ⟨w, g, c⟩ := t
  cases w <;> cases g <;> cases c <;>
    refine ⟨?_, ?_, ?_⟩ <;> intros <;> simp_all [IMGUI_TESTAPP_API]

/-- Witness for claim C2 amended, at the Windows toolchain. -/
theorem C2_amended_markers_witness :
    (IMGUI_TESTAPP_API { win32 := true, gnuc := false, clang := false }).marker
      = some ExportMarker.dllexport :=
  (C2_amended_markers { win32 := true, gnuc := false, clang := false }).1 rfl

/-- Claim C3: in every branch of the conditional, the macro expansion
carries C language linkage, and the single declared name is the literal
`imgui_testapp_run`, so it is unaffected by name mangling. -/
theorem C3_c_linkage (t : Toolchain) :
    (IMGUI_TESTAPP_API t).cLinkage = true ∧
    (imgui_testapp_api_h t).map FunDecl.name = ["imgui_testapp_run"] := by
  obtain ⟨w, g, c⟩ := t
  cases w <;> cases g <;> cases c <;> exact ⟨rfl, rfl⟩

/-- Claim C4 (spec-modelled): the call is synchronous and blocking: the
run-loop is in its terminal state exactly from step `callSteps e` onward,
the call spans exactly those `callSteps e` steps, and the value the call
returns is the status of the terminal state the run-loop reached. -/
theorem C4_blocking_until_terminated (e : Env) (k : Nat) :
    ((driveLoop e k).isTerminated = true ↔ callSteps e ≤ k) ∧
    driveLoop e (callSteps e) = LoopState.terminated (imgui_testapp_run e) := by
  refine ⟨⟨?_, ?_⟩, driveLoop_at_callSteps e⟩
  · intro h
    by_contra hlt
    have hk : k < callSteps e := Nat.lt_of_not_le hlt
    rw [driveLoop_not_terminated e k hk] at h
    exact Bool.false_ne_true h
  · intro h
    obtain ⟨d, rfl⟩ := Nat.exists_eq_add_of_le h
    rw [driveLoop_terminated_add e (callSteps e) (imgui_testapp_run e)
      (driveLoop_at_callSteps e) d]
    rfl

/-- Claim C5 (spec-modelled): every failure kind of the taxonomy is
converted to a non-zero integer status by the total conversion function,
so no language-level exception crosses the boundary. -/
theorem C5_failures_nonzero (o : RunOutcome) (h : o ≠ RunOutcome.normalExit) :
    statusOf o ≠ 0 := by
  cases o with
  | normalExit => exact absurd rfl h
  | backendInitFailure => simp [statusOf]
  | reentrantInvocation => simp [statusOf]
  | unexpectedTermination => simp [statusOf]

/-- Witness for claim C5, at the backend initialization failure. -/
theorem C5_failures_nonzero_witness :
    statusOf RunOutcome.backendInitFailure ≠ 0 :=
  C5_failures_nonzero RunOutcome.backendInitFailure (by decide)

/-- Claim C6 (spec-modelled): the returned integer follows the
convention: 0 when the run-loop exits normally (window closed by the
user), non-zero on abnormal termination such as backend initialization
failure; the outcome conversion sends normal exit to 0. -/
theorem C6_status_convention (e : Env) :
    (e.backendInitOk = true → imgui_testapp_run e = 0) ∧
    (e.backendInitOk = false → imgui_testapp_run e ≠ 0) ∧
    statusOf RunOutcome.normalExit = 0 := by
  refine ⟨?_, ?_, rfl⟩
  · intro he
    have hcs : callSteps e = e.framesUntilClose + 2 := by simp [callSteps, he]
    have h := driveLoop_terminated_ok e he
    simp [imgui_testapp_run, hcs, h, loopStatus]
  · intro he
    have hcs : callSteps e = 1 := by simp [callSteps, he]
    have h := driveLoop_fail e he 1 (le_refl 1)
    simp [imgui_testapp_run, hcs, h, loopStatus]

/-- Witness for claim C6, at an environment whose backend initializes
and whose window closes after 5 frames. -/
theorem C6_status_convention_witness :
    imgui_testapp_run { backendInitOk := true, framesUntilClose := 5 } = 0 :=
  (C6_status_convention { backendInitOk := true, framesUntilClose := 5 }).1 rfl

/-- Claim C7 (spec-modelled): after any call returns, with success or
failure status, the process-wide resource state is exactly what it was
before the call (window and graphics context fully released), and the
only observable result is the returned status. -/
theorem C7_resources_released (e : Env) (st : ProcState) :
    (imgui_testapp_run_full e st).2 = st ∧
    (imgui_testapp_run_full e st).1 = imgui_testapp_run e := by
  by_cases he : e.backendInitOk = true
  · refine ⟨?_, ?_⟩
    · simp [imgui_testapp_run_full, he, releaseResources, acquireResources]
    · simp [imgui_testapp_run_full, he, imgui_testapp_run]
  · have he' : e.backendInitOk = false := by simpa using he
    have hcs : callSteps e = 1 := by simp [callSteps, he']
    have h := driveLoop_fail e he' 1 (le_refl 1)
    refine ⟨?_, ?_⟩
    · simp [imgui_testapp_run_full, he']
    · simp [imgui_testapp_run_full, he', imgui_testapp_run, hcs, h, loopStatus]

/-- Claim C8: on a toolchain defining none of `_WIN32`, `__GNUC__`,
`__clang__`, the macro expands to C linkage alone, with no export or
visibility marker attached. -/
theorem C8_fallback_plain (t : Toolchain) (hw : t.win32 = false)
    (hg : t.gnuc = false) (hc : t.clang = false) :
    IMGUI_TESTAPP_API t = { cLinkage := true, marker := none } := by
  simp [IMGUI_TESTAPP_API, hw, hg, hc]

/-- Witness for claim C8, at the all-undefined toolchain. -/
theorem C8_fallback_plain_witness :
    IMGUI_TESTAPP_API { win32 := false, gnuc := false, clang := false }
      = { cLinkage := true, marker := none } :=
  C8_fallback_plain { win32 := false, gnuc := false, clang := false } rfl rfl rfl

/-- Claim C9: whenever `_WIN32` is defined, the macro expands to C
linkage plus `dllexport`, regardless of whether `__GNUC__` or
`__clang__` is also defined: the Windows branch takes precedence. -/
theorem C9_windows_precedence (t : Toolchain) (hw : t.win32 = true) :
    IMGUI_TESTAPP_API t = { cLinkage := true, marker := some ExportMarker.dllexport } := by
  simp [IMGUI_TESTAPP_API, hw]

/-- Witness for claim C9, at the MinGW-style toolchain defining both
`_WIN32` and `__GNUC__` and `__clang__`. -/
theorem C9_windows_precedence_witness :
    IMGUI_TESTAPP_API { win32 := true, gnuc := true, clang := true }
      = { cLinkage := true, marker := some ExportMarker.dllexport } :=
  C9_windows_precedence { win32 := true, gnuc := true, clang := true } rfl

/-- Claim C10: for every translation unit including the header any
positive number of times, the `#pragma once` guard makes the macro
definition and the declaration of `imgui_testapp_run` each appear exactly
once; no redefinition arises. -/
theorem C10_pragma_once (n : Nat) (h : 1 ≤ n) :
    (includeHeaderTimes n).emitted.count HeaderItem.defineApiItem = 1 ∧
    (includeHeaderTimes n).emitted.count HeaderItem.declRunItem = 1 := by
  obtain ⟨d, rfl⟩ := Nat.exists_eq_add_of_le h
  have h1 : 1 + d = d + 1 := by omega
  rw [h1, includeHeaderTimes_pos]
  exact ⟨rfl, rfl⟩

/-- Witness for claim C10, at a translation unit including the header
three times. -/
theorem C10_pragma_once_witness :
    (includeHeaderTimes 3).emitted.count HeaderItem.defineApiItem = 1 ∧
    (includeHeaderTimes 3).emitted.count HeaderItem.declRunItem = 1 :=
  C10_pragma_once 3 (by decide)
